import Mathlib

/-!
Verification development for the VkMOL engine core
(src/src/vkmol/src/engine/Engine.cpp and src/src/vkmol/src/Engine.cpp).

The Vulkan API is the external collaborator: its calls are modelled by
explicit result values supplied as inputs (an environment), and the code
under verification is translated statement by statement. Machine integers
(uint32_t) are modelled as Nat; the only place overflow could matter is the
sentinel comparison in chooseExtent, handled with the explicit constant
uint32Max. The VKMOL_GUARD family of macros lives in a header that is not
part of the sources; following the specification, a guard returns the
current result from the enclosing function as soon as it is not eSuccess
(the propagation policy: composition short-circuits on the first failure).
-/

namespace VkMOL

/-- Result codes of the underlying graphics API, restricted to the
constructors the engine sources mention plus generic errors used as sample
failures. -/
inductive VkResult where
  | eSuccess
  | eNotReady
  | eTimeout
  | eSuboptimalKHR
  | eErrorOutOfHostMemory
  | eErrorOutOfDeviceMemory
  | eErrorInitializationFailed
  | eErrorDeviceLost
  | eErrorOutOfDateKHR
deriving DecidableEq, Repr

/-- The largest value of a uint32_t; vk::SurfaceCapabilitiesKHR uses it as
the sentinel for an undefined current extent. -/
def uint32Max : Nat := 4294967295

/-- Embeds vk::Extent2D: a width/height pair of uint32_t. -/
structure Extent2D where
  width : Nat := 0
  height : Nat := 0
deriving DecidableEq, Repr

/-- Embeds the fields of vk::SurfaceCapabilitiesKHR the engine reads. -/
structure SurfaceCapabilities where
  currentExtent : Extent2D := {}
  minImageExtent : Extent2D := {}
  maxImageExtent : Extent2D := {}
  minImageCount : Nat := 0
  maxImageCount : Nat := 0
deriving DecidableEq, Repr

/-- Embeds Engine::chooseExtent (engine/Engine.cpp:833-853). When the
current extent width differs from the uint32_t sentinel the capabilities
extent is returned verbatim; otherwise the window size reported by the
GetWindowSize callback is clamped per axis with
max(minImageExtent, min(maxImageExtent, actual)). The callback result
(int, int) is modelled as a pair of Nat. -/
def chooseExtent (windowSize : Nat × Nat) (capabilities : SurfaceCapabilities) :
    Extent2D :=
  if capabilities.currentExtent.width ≠ uint32Max then
    capabilities.currentExtent
  else
    { width := max capabilities.minImageExtent.width
        (min capabilities.maxImageExtent.width windowSize.1),
      height := max capabilities.minImageExtent.height
        (min capabilities.maxImageExtent.height windowSize.2) }

/-- The loop condition of Engine::queryMemoryType at index i: bit i of the
type filter is set, and the property flags of memory type i contain all
requested flags. Memory types are the list of per-type property flag masks;
an index past the end of the list never satisfies the condition (the loop
never reaches it). -/
def memTypeSatB (memoryTypes : List Nat) (typeFilter propertyFlags i : Nat) :
    Bool :=
  match memoryTypes.get? i with
  | some flags =>
      typeFilter.testBit i && (Nat.land flags propertyFlags == propertyFlags)
  | none => false

/-- The counting loop of Engine::queryMemoryType (engine/Engine.cpp:994-1007),
with the remaining iteration count made explicit for structural recursion:
starting at index i with a given number of remaining indices, return the
first index satisfying the condition, else the error of the final return
statement. -/
def queryMemoryTypeGo (memoryTypes : List Nat) (typeFilter propertyFlags : Nat) :
    Nat → Nat → Except VkResult Nat
  | _, 0 => Except.error VkResult.eErrorOutOfDeviceMemory
  | i, remaining + 1 =>
    if memTypeSatB memoryTypes typeFilter propertyFlags i then
      Except.ok i
    else
      queryMemoryTypeGo memoryTypes typeFilter propertyFlags (i + 1) remaining

/-- Embeds Engine::queryMemoryType (engine/Engine.cpp:994-1007): scan the
device memory types from index 0 to memoryTypeCount (the list length);
return the first index whose filter bit is set and whose property flags are
a superset of the requested flags, else eErrorOutOfDeviceMemory. -/
def queryMemoryType (memoryTypes : List Nat) (typeFilter propertyFlags : Nat) :
    Except VkResult Nat :=
  queryMemoryTypeGo memoryTypes typeFilter propertyFlags 0 memoryTypes.length

/-- Embeds vk::SurfaceFormatKHR; the enumeration values of format and
color space are kept abstract as numerals. -/
structure SurfaceFormat where
  format : Nat := 0
  colorSpace : Nat := 0
deriving DecidableEq, Repr

/-- Embeds vk::PresentModeKHR. -/
inductive PresentMode where
  | eImmediate
  | eMailbox
  | eFifo
  | eFifoRelaxed
deriving DecidableEq, Repr

/-- Embeds vk::PhysicalDeviceType. -/
inductive PhysicalDeviceType where
  | eOther
  | eIntegratedGpu
  | eDiscreteGpu
  | eVirtualGpu
  | eCpu
deriving DecidableEq, Repr

/-- Embeds the single field of vk::PhysicalDeviceFeatures the engine
consults and sets (fillModeNonSolid). -/
structure EngineFeatures where
  fillModeNonSolid : Bool := false
deriving DecidableEq, Repr

/-- Modelled from the spec: the QueueFamilyIndices record declared in a
header that is not under src/ holds a graphics family index and a present
family index, each an optional integer, and the completeness predicate
holds when both are populated. -/
structure QueueFamilyIndices where
  GraphicsFamilyIndex : Option Nat := none
  PresentFamilyIndex : Option Nat := none
deriving DecidableEq, Repr

/-- Modelled from the spec: the completeness invariant of
QueueFamilyIndices, both indices populated. -/
def QueueFamilyIndices.isComplete (q : QueueFamilyIndices) : Bool :=
  q.GraphicsFamilyIndex.isSome && q.PresentFamilyIndex.isSome

/-- Embeds the per-family data Engine::queryQueueFamilies reads: the queue
count and graphics flag from getQueueFamilyProperties, and the result and
value of the getSurfaceSupportKHR call made at the same family index. -/
structure QueueFamilyProperties where
  queueCount : Nat
  graphicsFlag : Bool
  surfaceSupportResult : VkResult
  presentSupport : Bool
deriving DecidableEq, Repr

/-- Embeds one physical device as the outcomes of every query the engine
makes against it (the Vulkan driver is the external collaborator). -/
structure PhysicalDeviceData where
  queueFamilies : List QueueFamilyProperties
  enumerateExtensionsResult : VkResult
  availableExtensions : List String
  surfaceCapabilitiesResult : VkResult
  capabilities : SurfaceCapabilities
  surfaceFormatsResult : VkResult
  formats : List SurfaceFormat
  presentModesResult : VkResult
  presentModes : List PresentMode
  fillModeNonSolid : Bool
  deviceType : PhysicalDeviceType
deriving DecidableEq, Repr

/-- The loop of Engine::queryQueueFamilies (engine/Engine.cpp:748-776) over
the family list, carrying the running index and the indices record: record
a graphics-capable family, guard the surface-support query (returning the
partial record on a query error, as VKMOL_GUARD_VALUE does), record a
present-capable family, and stop early once the record is complete. -/
def queryQueueFamiliesGo :
    List QueueFamilyProperties → Nat → QueueFamilyIndices →
      VkResult × QueueFamilyIndices
  | [], _, indices => (VkResult.eSuccess, indices)
  | qf :: rest, i, indices =>
    let indices :=
      if qf.queueCount > 0 && qf.graphicsFlag then
        { indices with GraphicsFamilyIndex := some i }
      else indices
    if qf.surfaceSupportResult ≠ VkResult.eSuccess then
      (qf.surfaceSupportResult, indices)
    else
      let indices :=
        if qf.queueCount > 0 && qf.presentSupport then
          { indices with PresentFamilyIndex := some i }
        else indices
      if indices.isComplete then
        (VkResult.eSuccess, indices)
      else
        queryQueueFamiliesGo rest (i + 1) indices

/-- Embeds Engine::queryQueueFamilies (engine/Engine.cpp:748-776). -/
def queryQueueFamilies (dev : PhysicalDeviceData) :
    VkResult × QueueFamilyIndices :=
  queryQueueFamiliesGo dev.queueFamilies 0 {}

/-- Embeds Engine::checkDeviceExtensionSupport (engine/Engine.cpp:732-746):
build the set of required names from the DeviceExtensions member, erase
every available extension, and report whether the remainder is empty,
i.e. whether every required extension is among the available ones. -/
def checkDeviceExtensionSupport (deviceExtensions : List String)
    (dev : PhysicalDeviceData) : VkResult × Bool :=
  if dev.enumerateExtensionsResult ≠ VkResult.eSuccess then
    (dev.enumerateExtensionsResult, false)
  else
    (VkResult.eSuccess,
      deviceExtensions.all (fun e => dev.availableExtensions.contains e))

/-- Embeds the SwapchainSupportDetails record filled by
Engine::querySwapchainSupport. -/
structure SwapchainSupportDetails where
  Capabilities : SurfaceCapabilities := {}
  Formats : List SurfaceFormat := []
  PresentModes : List PresentMode := []
deriving DecidableEq, Repr

/-- Embeds Engine::querySwapchainSupport (engine/Engine.cpp:778-796): fill
capabilities, formats and present modes in that order, returning the
partially filled record on the first query error. -/
def querySwapchainSupport (dev : PhysicalDeviceData) :
    VkResult × SwapchainSupportDetails :=
  let details : SwapchainSupportDetails := {}
  if dev.surfaceCapabilitiesResult ≠ VkResult.eSuccess then
    (dev.surfaceCapabilitiesResult, details)
  else
    let details := { details with Capabilities := dev.capabilities }
    if dev.surfaceFormatsResult ≠ VkResult.eSuccess then
      (dev.surfaceFormatsResult, details)
    else
      let details := { details with Formats := dev.formats }
      if dev.presentModesResult ≠ VkResult.eSuccess then
        (dev.presentModesResult, details)
      else
        (VkResult.eSuccess, { details with PresentModes := dev.presentModes })

/-- Embeds Engine::scoreDevice (engine/Engine.cpp:668-730). Score starts at
0; a device is non-viable (score 0, success) when the queue-family indices
are incomplete, a required extension is unsupported, the surface has no
formats or no present modes, or fillModeNonSolid is unavailable; otherwise
1000 is added for a discrete GPU and 100 for an integrated GPU. Probe
errors return the error with score 0 (VKMOL_GUARD_VALUES). -/
def scoreDevice (deviceExtensions : List String) (dev : PhysicalDeviceData) :
    VkResult × Nat × EngineFeatures :=
  let features : EngineFeatures := {}
  let nonViable := (VkResult.eSuccess, 0, features)
  let queueOutcome := queryQueueFamilies dev
  if queueOutcome.1 ≠ VkResult.eSuccess then (queueOutcome.1, 0, features)
  else if !queueOutcome.2.isComplete then nonViable
  else
    let extOutcome := checkDeviceExtensionSupport deviceExtensions dev
    if extOutcome.1 ≠ VkResult.eSuccess then (extOutcome.1, 0, features)
    else if !extOutcome.2 then nonViable
    else
      let supportOutcome := querySwapchainSupport dev
      if supportOutcome.1 ≠ VkResult.eSuccess then
        (supportOutcome.1, 0, features)
      else if supportOutcome.2.Formats.isEmpty ||
          supportOutcome.2.PresentModes.isEmpty then nonViable
      else if !dev.fillModeNonSolid then nonViable
      else
        let features : EngineFeatures := { fillModeNonSolid := true }
        let score : Nat :=
          match dev.deviceType with
          | PhysicalDeviceType.eDiscreteGpu => 0 + 1000
          | PhysicalDeviceType.eIntegratedGpu => 0 + 100
          | _ => 0
        (VkResult.eSuccess, score, features)

/-- The scoring loop of Engine::createPhysicalDevice
(engine/Engine.cpp:123-130): score each enumerated device in order,
aborting on the first probe error (VKMOL_GUARD), and collect the multimap
insertions as the list of key-value pairs in insertion order. The uint32_t
score is converted to the int key of the multimap. -/
def scoreAllDevices (deviceExtensions : List String) :
    List PhysicalDeviceData →
      Except VkResult (List (Int × PhysicalDeviceData × EngineFeatures))
  | [] => Except.ok []
  | d :: ds =>
    let outcome := scoreDevice deviceExtensions d
    if outcome.1 ≠ VkResult.eSuccess then Except.error outcome.1
    else
      match scoreAllDevices deviceExtensions ds with
      | Except.error e => Except.error e
      | Except.ok rest =>
        Except.ok ((Int.ofNat outcome.2.1, d, outcome.2.2) :: rest)

/-- The element denoted by Candidates.rbegin() for a std::multimap built by
the given insertion sequence: the entry with the greatest key, and among
equal greatest keys the last inserted (multimap iteration preserves
insertion order within a key). -/
def multimapRBegin {α : Type} (entries : List (Int × α)) : Option (Int × α) :=
  entries.foldl
    (fun best entry =>
      match best with
      | none => some entry
      | some b => if b.1 ≤ entry.1 then some entry else some b)
    none

/-- Embeds Engine::createPhysicalDevice (engine/Engine.cpp:109-141):
enumerate devices (an empty enumeration fails with
eErrorInitializationFailed), score each into the candidate multimap, take
the top entry, fail with eErrorInitializationFailed when its score is
negative, and otherwise store the chosen device and features. The
enumeration itself is assumed to succeed; an empty candidate set cannot
occur on the dereference path because the device list was checked
non-empty, and is mapped to the same initialization failure for
totality. -/
def createPhysicalDevice (deviceExtensions : List String)
    (devices : List PhysicalDeviceData) :
    VkResult × Option (PhysicalDeviceData × EngineFeatures) :=
  if devices.isEmpty then (VkResult.eErrorInitializationFailed, none)
  else
    match scoreAllDevices deviceExtensions devices with
    | Except.error r => (r, none)
    | Except.ok candidates =>
      match multimapRBegin candidates with
      | none => (VkResult.eErrorInitializationFailed, none)
      | some top =>
        if top.1 < 0 then (VkResult.eErrorInitializationFailed, none)
        else (VkResult.eSuccess, some top.2)

/-- A device failing the first viability predicate: it exposes no queue
families at all, so the queue-family indices stay incomplete; every probe
call succeeds. -/
def nonViableDevice : PhysicalDeviceData :=
  { queueFamilies := [],
    enumerateExtensionsResult := VkResult.eSuccess,
    availableExtensions := [],
    surfaceCapabilitiesResult := VkResult.eSuccess,
    capabilities := {},
    surfaceFormatsResult := VkResult.eSuccess,
    formats := [],
    presentModesResult := VkResult.eSuccess,
    presentModes := [],
    fillModeNonSolid := false,
    deviceType := PhysicalDeviceType.eOther }

/-- A device passing every viability predicate, of discrete GPU type. -/
def viableDiscreteDevice : PhysicalDeviceData :=
  { queueFamilies :=
      [{ queueCount := 1, graphicsFlag := true,
         surfaceSupportResult := VkResult.eSuccess, presentSupport := true }],
    enumerateExtensionsResult := VkResult.eSuccess,
    availableExtensions := ["VK_KHR_swapchain"],
    surfaceCapabilitiesResult := VkResult.eSuccess,
    capabilities := {},
    surfaceFormatsResult := VkResult.eSuccess,
    formats := [{ format := 44, colorSpace := 0 }],
    presentModesResult := VkResult.eSuccess,
    presentModes := [PresentMode.eFifo],
    fillModeNonSolid := true,
    deviceType := PhysicalDeviceType.eDiscreteGpu }

/-- The same fully viable device with a device type that earns no bonus. -/
def viableCpuDevice : PhysicalDeviceData :=
  { viableDiscreteDevice with deviceType := PhysicalDeviceType.eCpu }

/-- The staleness test of Engine::drawFrame: the acquire or present result
equals eErrorOutOfDateKHR or eSuboptimalKHR, the condition under which
recreateSwapchain is invoked. -/
def isStalenessSignal (r : VkResult) : Bool :=
  r == VkResult.eErrorOutOfDateKHR || r == VkResult.eSuboptimalKHR

/-- The results the Vulkan calls inside one Engine::drawFrame execution
report: fence wait, fence reset, image acquire, queue submit, present. -/
structure FrameInputs where
  waitFencesResult : VkResult
  resetFencesResult : VkResult
  acquireResult : VkResult
  submitResult : VkResult
  presentResult : VkResult
deriving DecidableEq, Repr

/-- The observable outcome of one Engine::drawFrame execution: the returned
result, the CurrentFrame member afterwards, and how many times
recreateSwapchain was invoked. -/
structure FrameOutcome where
  result : VkResult
  currentFrame : Nat
  recreateCalls : Nat
deriving DecidableEq, Repr

/-- Embeds Engine::drawFrame (engine/Engine.cpp:1205-1268). Each Vulkan
call result is guarded in program order (VKMOL_GUARD returns it when it is
not eSuccess); the acquire and present results additionally trigger
recreateSwapchain first when they are out-of-date or suboptimal; only
after a present that returned eSuccess is CurrentFrame advanced modulo
MaxFramesInFlight. MaxFramesInFlight is a constant declared in a header
not under src/ and is a parameter here. -/
def drawFrame (maxFramesInFlight currentFrame : Nat) (inp : FrameInputs) :
    FrameOutcome :=
  if inp.waitFencesResult ≠ VkResult.eSuccess then
    { result := inp.waitFencesResult, currentFrame := currentFrame,
      recreateCalls := 0 }
  else if inp.resetFencesResult ≠ VkResult.eSuccess then
    { result := inp.resetFencesResult, currentFrame := currentFrame,
      recreateCalls := 0 }
  else
    let acquireRecreates : Nat :=
      if isStalenessSignal inp.acquireResult then 1 else 0
    if inp.acquireResult ≠ VkResult.eSuccess then
      { result := inp.acquireResult, currentFrame := currentFrame,
        recreateCalls := acquireRecreates }
    else if inp.submitResult ≠ VkResult.eSuccess then
      { result := inp.submitResult, currentFrame := currentFrame,
        recreateCalls := acquireRecreates }
    else
      let presentRecreates : Nat :=
        if isStalenessSignal inp.presentResult then 1 else 0
      if inp.presentResult ≠ VkResult.eSuccess then
        { result := inp.presentResult, currentFrame := currentFrame,
          recreateCalls := acquireRecreates + presentRecreates }
      else
        { result := VkResult.eSuccess,
          currentFrame := (currentFrame + 1) % maxFramesInFlight,
          recreateCalls := acquireRecreates + presentRecreates }

/-- The results of the Vulkan calls inside Engine::copyBuffer: the command
buffer allocation, and the queue submission whose result the code
discards. -/
structure CopyBufferEnv where
  allocateCommandBuffersResult : VkResult
  submitResult : VkResult
deriving DecidableEq, Repr

/-- Embeds Engine::copyBuffer (engine/Engine.cpp:1047-1084): the command
buffer allocation is guarded (VKMOL_GUARD); the results of begin, end,
the GraphicsQueue submission and waitIdle are discarded; the function then
returns eSuccess. -/
def copyBuffer (env : CopyBufferEnv) : VkResult :=
  if env.allocateCommandBuffersResult ≠ VkResult.eSuccess then
    env.allocateCommandBuffersResult
  else
    VkResult.eSuccess

/-- The results of the fallible sub-steps of Engine::createVertexBuffer and
Engine::createIndexBuffer: the staging createBuffer call, the device-local
destination createBuffer call, and the inner calls of copyBuffer. -/
structure GeometryBufferEnv where
  stagingCreateBufferResult : VkResult
  destinationCreateBufferResult : VkResult
  copy : CopyBufferEnv
deriving DecidableEq, Repr

/-- Embeds Engine::createVertexBuffer (engine/Engine.cpp:415-449). Each
sub-step result is assigned to the local Result variable but no assignment
is followed by a guard, and the final statement returns eSuccess
unconditionally. -/
def createVertexBuffer (env : GeometryBufferEnv) : VkResult :=
  let _Result := env.stagingCreateBufferResult
  let _Result := env.destinationCreateBufferResult
  let _Result := copyBuffer env.copy
  VkResult.eSuccess

/-- Embeds Engine::createIndexBuffer (engine/Engine.cpp:451-485), whose
result flow is identical to createVertexBuffer: sub-step results are
assigned to Result, never checked, and eSuccess is returned. -/
def createIndexBuffer (env : GeometryBufferEnv) : VkResult :=
  let _Result := env.stagingCreateBufferResult
  let _Result := env.destinationCreateBufferResult
  let _Result := copyBuffer env.copy
  VkResult.eSuccess

/-- The actions Engine::recreateSwapchain performs, in the order the source
lists them. -/
inductive RebuildStep where
  | waitIdle
  | swapchain
  | imageViews
  | renderPass
  | pipelines
  | framebuffers
  | commandBuffers
deriving DecidableEq, Repr

/-- The results of the six rebuild calls Engine::recreateSwapchain makes. -/
structure RebuildEnv where
  swapchainResult : VkResult
  imageViewsResult : VkResult
  renderPassResult : VkResult
  pipelinesResult : VkResult
  framebuffersResult : VkResult
  commandBuffersResult : VkResult
deriving DecidableEq, Repr

/-- Embeds Engine::recreateSwapchain (engine/Engine.cpp:1114-1137):
Device waitIdle first (result discarded), then the six rebuild calls in
program order, each followed by VKMOL_GUARD; the returned value is paired
with the trace of actions performed. -/
def recreateSwapchain (env : RebuildEnv) : VkResult × List RebuildStep :=
  if env.swapchainResult ≠ VkResult.eSuccess then
    (env.swapchainResult, [RebuildStep.waitIdle, RebuildStep.swapchain])
  else if env.imageViewsResult ≠ VkResult.eSuccess then
    (env.imageViewsResult,
     [RebuildStep.waitIdle, RebuildStep.swapchain, RebuildStep.imageViews])
  else if env.renderPassResult ≠ VkResult.eSuccess then
    (env.renderPassResult,
     [RebuildStep.waitIdle, RebuildStep.swapchain, RebuildStep.imageViews,
      RebuildStep.renderPass])
  else if env.pipelinesResult ≠ VkResult.eSuccess then
    (env.pipelinesResult,
     [RebuildStep.waitIdle, RebuildStep.swapchain, RebuildStep.imageViews,
      RebuildStep.renderPass, RebuildStep.pipelines])
  else if env.framebuffersResult ≠ VkResult.eSuccess then
    (env.framebuffersResult,
     [RebuildStep.waitIdle, RebuildStep.swapchain, RebuildStep.imageViews,
      RebuildStep.renderPass, RebuildStep.pipelines,
      RebuildStep.framebuffers])
  else if env.commandBuffersResult ≠ VkResult.eSuccess then
    (env.commandBuffersResult,
     [RebuildStep.waitIdle, RebuildStep.swapchain, RebuildStep.imageViews,
      RebuildStep.renderPass, RebuildStep.pipelines, RebuildStep.framebuffers,
      RebuildStep.commandBuffers])
  else
    (VkResult.eSuccess,
     [RebuildStep.waitIdle, RebuildStep.swapchain, RebuildStep.imageViews,
      RebuildStep.renderPass, RebuildStep.pipelines, RebuildStep.framebuffers,
      RebuildStep.commandBuffers])

/-- The dependency order of the rebuild steps named by the claim. -/
def rebuildOrder : List RebuildStep :=
  [RebuildStep.swapchain, RebuildStep.imageViews, RebuildStep.renderPass,
   RebuildStep.pipelines, RebuildStep.framebuffers, RebuildStep.commandBuffers]

/-- How many rebuild steps run: everything up to and including the first
failing step, or all six when none fails. -/
def rebuildStepsRun (env : RebuildEnv) : Nat :=
  if env.swapchainResult ≠ VkResult.eSuccess then 1
  else if env.imageViewsResult ≠ VkResult.eSuccess then 2
  else if env.renderPassResult ≠ VkResult.eSuccess then 3
  else if env.pipelinesResult ≠ VkResult.eSuccess then 4
  else if env.framebuffersResult ≠ VkResult.eSuccess then 5
  else 6

/-- The result of the first failing rebuild step, or eSuccess when none
fails. -/
def rebuildFirstFailure (env : RebuildEnv) : VkResult :=
  if env.swapchainResult ≠ VkResult.eSuccess then env.swapchainResult
  else if env.imageViewsResult ≠ VkResult.eSuccess then env.imageViewsResult
  else if env.renderPassResult ≠ VkResult.eSuccess then env.renderPassResult
  else if env.pipelinesResult ≠ VkResult.eSuccess then env.pipelinesResult
  else if env.framebuffersResult ≠ VkResult.eSuccess then
    env.framebuffersResult
  else if env.commandBuffersResult ≠ VkResult.eSuccess then
    env.commandBuffersResult
  else VkResult.eSuccess

/-- The statically declared required instance extensions
(Engine.cpp:14, engine/Engine.cpp:36): empty. -/
def RequiredInstanceExtensions : List String := []

/-- The statically declared required device extensions
(Engine.cpp:16-17, engine/Engine.cpp:38-39): the swapchain extension. -/
def RequiredDeviceExtensions : List String := ["VK_KHR_swapchain"]

/-- The two extension-list members of the Engine class that the claim is
about. -/
structure EngineMembers where
  InstanceExtensions : List String
  DeviceExtensions : List String
deriving DecidableEq, Repr

/-- Embeds Engine::Engine (src/src/vkmol/src/Engine.cpp:19-43). The
member-initializer list move-constructs the members InstanceExtensions and
DeviceExtensions from the same-named constructor parameters. Inside the
constructor body, unqualified-name lookup resolves those names to the
parameters, which shadow the members, so the reserve and insert calls
append RequiredInstanceExtensions and RequiredDeviceExtensions to the
moved-from parameter vectors, which are discarded when the constructor
returns; the members are never touched by the body. movedInst and movedDev
stand for the unspecified contents of a moved-from std::vector. Returns
the stored members together with the final values of the two parameter
locals. -/
def engineConstruct (instExts devExts movedInst movedDev : List String) :
    EngineMembers × List String × List String :=
  ({ InstanceExtensions := instExts, DeviceExtensions := devExts },
   movedInst ++ RequiredInstanceExtensions,
   movedDev ++ RequiredDeviceExtensions)

/-- The state of a vk::Fence that matters here: whether it is signaled. -/
structure FenceState where
  signaled : Bool
deriving DecidableEq, Repr

/-- Embeds the fence part of Engine::createSyncObjects
(engine/Engine.cpp:641-666): the one FenceCreateInfo used by every loop
iteration carries vk::FenceCreateFlagBits::eSignaled, so each of the
MaxFramesInFlight in-flight fences is created in the signaled state. The
semaphores and the creation-failure guards are outside the claim;
MaxFramesInFlight is declared in a header not under src/ and is a
parameter here. -/
def createSyncObjectsFences (maxFramesInFlight : Nat) : List FenceState :=
  List.replicate maxFramesInFlight { signaled := true }

/-- Modelled from the spec: waitForFences blocks until the fence is
signaled (unbounded timeout); when no queue submission has signaled the
fence, the first wait returns, with eSuccess, exactly when the fence was
created in the signaled state, and would block forever otherwise
(represented by none). -/
def firstFenceWait (fence : FenceState) : Option VkResult :=
  if fence.signaled then some VkResult.eSuccess else none

theorem queryMemoryTypeGo_ok (mts : List Nat) (f p : Nat) :
    ∀ remaining i j, (∀ k, k < i → memTypeSatB mts f p k = false) →
      queryMemoryTypeGo mts f p i remaining = Except.ok j →
      memTypeSatB mts f p j = true ∧
        ∀ k, k < j → memTypeSatB mts f p k = false := by
  intro remaining
  induction remaining with
  | zero =>
    intro i j _ hrun
    simp [queryMemoryTypeGo] at hrun
  | succ n ih =>
    intro i j hbelow hrun
    by_cases hs : memTypeSatB mts f p i = true
    · have hij : i = j := by
        simpa [queryMemoryTypeGo, hs] using hrun
      subst hij
      exact ⟨hs, hbelow⟩
    · have hs' : memTypeSatB mts f p i = false := by
        simpa using hs
      have hrun' : queryMemoryTypeGo mts f p (i + 1) n = Except.ok j := by
        simpa [queryMemoryTypeGo, hs'] using hrun
      refine ih (i + 1) j ?_ hrun'
      intro k hk
      rcases Nat.lt_succ_iff_lt_or_eq.mp hk with h | h
      · exact hbelow k h
      · subst h
        exact hs'

theorem memTypeSatB_lt_length (mts : List Nat) (f p j : Nat)
    (h : memTypeSatB mts f p j = true) : j < mts.length := by
  by_contra hge
  have hnone : mts.get? j = none :=
    List.get?_eq_none.mpr (Nat.le_of_not_lt hge)
  rw [List.get?_eq_getElem?] at hnone
  simp [memTypeSatB, hnone] at h

theorem queryMemoryTypeGo_finds (mts : List Nat) (f p : Nat) :
    ∀ remaining i j, i ≤ j → j < i + remaining →
      memTypeSatB mts f p j = true →
      (∀ k, i ≤ k → k < j → memTypeSatB mts f p k = false) →
      queryMemoryTypeGo mts f p i remaining = Except.ok j := by
  intro remaining
  induction remaining with
  | zero =>
    intro i j hij hlt _ _
    exact absurd hlt (by omega)
  | succ n ih =>
    intro i j hij hlt hsat hmin
    by_cases hji : i = j
    · subst hji
      simp [queryMemoryTypeGo, hsat]
    · have hilt : i < j := Nat.lt_of_le_of_ne hij hji
      have hs : memTypeSatB mts f p i = false := hmin i (Nat.le_refl i) hilt
      have htail := ih (i + 1) j (by omega) (by omega) hsat
        (fun k hk1 hk2 => hmin k (by omega) hk2)
      simpa [queryMemoryTypeGo, hs] using htail

theorem queryMemoryTypeGo_err (mts : List Nat) (f p : Nat) :
    ∀ remaining i,
      (∀ k, i ≤ k → k < i + remaining → memTypeSatB mts f p k = false) →
      queryMemoryTypeGo mts f p i remaining =
        Except.error VkResult.eErrorOutOfDeviceMemory := by
  intro remaining
  induction remaining with
  | zero =>
    intro i _
    rfl
  | succ n ih =>
    intro i h
    have hs : memTypeSatB mts f p i = false :=
      h i (Nat.le_refl i) (by omega)
    have htail := ih (i + 1) (fun k hk1 hk2 => h k (by omega) (by omega))
    simpa [queryMemoryTypeGo, hs] using htail

/-- Claim C5: for every type filter and requested property-flag set,
Engine::queryMemoryType returns the smallest memory type index whose filter
bit is set and whose property flags are a superset of the requested flags;
if no index satisfies both conditions, it returns the out-of-memory-type
error (the eErrorOutOfDeviceMemory code of the final return statement).
Both outcomes are characterized exactly: the call returns ok j precisely
when j is the least satisfying index (so whenever some index satisfies
both conditions the call succeeds with the least one), and it returns the
error precisely when no index satisfies them. -/
theorem queryMemoryType_first_fit (memoryTypes : List Nat)
    (typeFilter propertyFlags : Nat) :
    (∀ j, queryMemoryType memoryTypes typeFilter propertyFlags = Except.ok j ↔
        memTypeSatB memoryTypes typeFilter propertyFlags j = true ∧
        ∀ k, k < j →
          memTypeSatB memoryTypes typeFilter propertyFlags k = false) ∧
    (queryMemoryType memoryTypes typeFilter propertyFlags =
        Except.error VkResult.eErrorOutOfDeviceMemory ↔
      ∀ k, memTypeSatB memoryTypes typeFilter propertyFlags k = false) := by
  constructor
  · intro j
    constructor
    · intro h
      exact queryMemoryTypeGo_ok memoryTypes typeFilter propertyFlags
        memoryTypes.length 0 j (fun k hk => absurd hk (Nat.not_lt_zero k)) h
    · intro h
      refine queryMemoryTypeGo_finds memoryTypes typeFilter propertyFlags
        memoryTypes.length 0 j (Nat.zero_le j) ?_ h.1
        (fun k _ hk2 => h.2 k hk2)
      have hb := memTypeSatB_lt_length memoryTypes typeFilter propertyFlags
        j h.1
      omega
  · constructor
    · intro herr k
      by_contra hk
      have hk' : memTypeSatB memoryTypes typeFilter propertyFlags k = true :=
        by simpa using hk
      have hex : ∃ m,
          memTypeSatB memoryTypes typeFilter propertyFlags m = true := ⟨k, hk'⟩
      have hj := Nat.find_spec hex
      have hok : queryMemoryType memoryTypes typeFilter propertyFlags =
          Except.ok (Nat.find hex) := by
        refine queryMemoryTypeGo_finds memoryTypes typeFilter propertyFlags
          memoryTypes.length 0 (Nat.find hex) (Nat.zero_le _) ?_ hj ?_
        · have hb := memTypeSatB_lt_length memoryTypes typeFilter
            propertyFlags (Nat.find hex) hj
          omega
        · intro m _ hm
          have hne := Nat.find_min hex hm
          simpa using hne
      rw [herr] at hok
      exact Except.noConfusion hok
    · intro h
      exact queryMemoryTypeGo_err memoryTypes typeFilter propertyFlags
        memoryTypes.length 0 (fun k _ _ => h k)

theorem queryMemoryType_first_fit_witness :
    queryMemoryType [1, 3] 2 1 = Except.ok 1 :=
  ((queryMemoryType_first_fit [1, 3] 2 1).1 1).mpr (by decide)

/-- Claim C6: for every surface-capabilities value, Engine::chooseExtent
returns the current extent unmodified when it is defined (width differs
from the uint32_t sentinel); when it is undefined, it returns the window
size from the window-size callback with width and height independently
clamped into the interval from minImageExtent to maxImageExtent. -/
theorem chooseExtent_spec (windowSize : Nat × Nat)
    (capabilities : SurfaceCapabilities)
    (hW : capabilities.minImageExtent.width ≤ capabilities.maxImageExtent.width)
    (hH : capabilities.minImageExtent.height ≤
      capabilities.maxImageExtent.height) :
    (capabilities.currentExtent.width ≠ uint32Max →
      chooseExtent windowSize capabilities = capabilities.currentExtent) ∧
    (capabilities.currentExtent.width = uint32Max →
      (chooseExtent windowSize capabilities).width =
        min (max windowSize.1 capabilities.minImageExtent.width)
          capabilities.maxImageExtent.width ∧
      (chooseExtent windowSize capabilities).height =
        min (max windowSize.2 capabilities.minImageExtent.height)
          capabilities.maxImageExtent.height) := by
  constructor
  · intro h
    simp [chooseExtent, h]
  · intro h
    constructor
    · simp only [chooseExtent, h, ne_eq, not_true_eq_false, if_false]
      simp only [Nat.max_def, Nat.min_def]
      split_ifs <;> omega
    · simp only [chooseExtent, h, ne_eq, not_true_eq_false, if_false]
      simp only [Nat.max_def, Nat.min_def]
      split_ifs <;> omega

theorem chooseExtent_spec_witness :
    chooseExtent (640, 480)
        { currentExtent := { width := 800, height := 600 },
          minImageExtent := { width := 1, height := 1 },
          maxImageExtent := { width := 1000, height := 1000 },
          minImageCount := 1, maxImageCount := 2 } =
      { width := 800, height := 600 } :=
  (chooseExtent_spec (640, 480)
      { currentExtent := { width := 800, height := 600 },
        minImageExtent := { width := 1, height := 1 },
        maxImageExtent := { width := 1000, height := 1000 },
        minImageCount := 1, maxImageCount := 2 }
      (by decide) (by decide)).1 (by decide)

/-- Claim C2 is contradicted by the code: a fully viable discrete GPU
scores 1000 rather than the claimed baseline-plus-bonus 1001, and a fully
viable device of a kind earning no bonus scores 0 — the same value as a
non-viable device — rather than the claimed baseline 1. The score variable
is initialized to 0 and the clamp of non-failure scores to 1 announced in
the source comment is never performed. -/
theorem scoreDevice_baseline_missing :
    scoreDevice ["VK_KHR_swapchain"] viableDiscreteDevice =
      (VkResult.eSuccess, 1000, { fillModeNonSolid := true }) ∧
    scoreDevice ["VK_KHR_swapchain"] viableCpuDevice =
      (VkResult.eSuccess, 0, { fillModeNonSolid := true }) :=
  ⟨rfl, rfl⟩

/-- Claim C1 is contradicted by the code: on a one-element device list
whose only device fails a viability predicate (so its score, like every
score, is 0), Engine::createPhysicalDevice returns eSuccess and selects
that non-viable device, instead of failing with
eErrorInitializationFailed; initialize() therefore proceeds to
createLogicalDevice. The guard (TopScore less than 0) can never fire
because scores are unsigned. -/
theorem createPhysicalDevice_selects_nonviable :
    scoreDevice ["VK_KHR_swapchain"] nonViableDevice =
      (VkResult.eSuccess, 0, {}) ∧
    createPhysicalDevice ["VK_KHR_swapchain"] [nonViableDevice] =
      (VkResult.eSuccess, some (nonViableDevice, {})) :=
  ⟨rfl, rfl⟩

/-- Claim C3 is contradicted by the code: with every other call succeeding,
an out-of-date acquire makes drawFrame invoke recreateSwapchain once and
then still return eErrorOutOfDateKHR to the caller, and a suboptimal
present likewise returns eSuboptimalKHR after invoking recreation — the
guard following the recreation call propagates the staleness status it was
meant to intercept. -/
theorem drawFrame_staleness_propagates :
    drawFrame 2 0
        { waitFencesResult := VkResult.eSuccess,
          resetFencesResult := VkResult.eSuccess,
          acquireResult := VkResult.eErrorOutOfDateKHR,
          submitResult := VkResult.eSuccess,
          presentResult := VkResult.eSuccess } =
      { result := VkResult.eErrorOutOfDateKHR, currentFrame := 0,
        recreateCalls := 1 } ∧
    drawFrame 2 0
        { waitFencesResult := VkResult.eSuccess,
          resetFencesResult := VkResult.eSuccess,
          acquireResult := VkResult.eSuccess,
          submitResult := VkResult.eSuccess,
          presentResult := VkResult.eSuboptimalKHR } =
      { result := VkResult.eSuboptimalKHR, currentFrame := 0,
        recreateCalls := 1 } :=
  ⟨rfl, rfl⟩

/-- Claim C4 is contradicted by the code: Engine::createVertexBuffer
returns eSuccess even when its staging createBuffer call fails, and
Engine::createIndexBuffer returns eSuccess even when the command-buffer
allocation inside its copyBuffer call fails — the inner failures are
assigned to the Result variable but the functions unconditionally return
eSuccess, silently swallowing them. -/
theorem createGeometryBuffers_swallow :
    createVertexBuffer
        { stagingCreateBufferResult := VkResult.eErrorOutOfDeviceMemory,
          destinationCreateBufferResult := VkResult.eSuccess,
          copy := { allocateCommandBuffersResult := VkResult.eSuccess,
                    submitResult := VkResult.eSuccess } } =
      VkResult.eSuccess ∧
    copyBuffer
        { allocateCommandBuffersResult := VkResult.eErrorOutOfHostMemory,
          submitResult := VkResult.eSuccess } =
      VkResult.eErrorOutOfHostMemory ∧
    createIndexBuffer
        { stagingCreateBufferResult := VkResult.eSuccess,
          destinationCreateBufferResult := VkResult.eSuccess,
          copy := { allocateCommandBuffersResult :=
                      VkResult.eErrorOutOfHostMemory,
                    submitResult := VkResult.eSuccess } } =
      VkResult.eSuccess :=
  ⟨rfl, rfl, rfl⟩

/-- Claim C7: every call to Engine::recreateSwapchain first waits for the
device to go idle and then performs the rebuild calls in exactly the order
swapchain, image views, render pass, pipelines, framebuffers, command
buffers, stopping after the first failing call, whose result it returns
(eSuccess when none fails). -/
theorem recreateSwapchain_order (env : RebuildEnv) :
    recreateSwapchain env =
      (rebuildFirstFailure env,
       RebuildStep.waitIdle :: rebuildOrder.take (rebuildStepsRun env)) := by
  unfold recreateSwapchain rebuildFirstFailure rebuildStepsRun rebuildOrder
  split_ifs <;> rfl

/-- Claim C8: in every execution of Engine::drawFrame, CurrentFrame is
advanced by one modulo MaxFramesInFlight exactly when the whole frame
(fence wait, reset, acquire, submit, present) completed with eSuccess; on
every failing exit path it is unchanged, and it always stays below
MaxFramesInFlight. -/
theorem drawFrame_cursor (maxFrames cf : Nat) (inp : FrameInputs)
    (hmax : 0 < maxFrames) (hcf : cf < maxFrames) :
    ((drawFrame maxFrames cf inp).result = VkResult.eSuccess →
      (drawFrame maxFrames cf inp).currentFrame = (cf + 1) % maxFrames) ∧
    ((drawFrame maxFrames cf inp).result ≠ VkResult.eSuccess →
      (drawFrame maxFrames cf inp).currentFrame = cf) ∧
    (drawFrame maxFrames cf inp).currentFrame < maxFrames ∧
    ((drawFrame maxFrames cf inp).result = VkResult.eSuccess ↔
      inp.waitFencesResult = VkResult.eSuccess ∧
      inp.resetFencesResult = VkResult.eSuccess ∧
      inp.acquireResult = VkResult.eSuccess ∧
      inp.submitResult = VkResult.eSuccess ∧
      inp.presentResult = VkResult.eSuccess) := by
  unfold drawFrame
  split_ifs <;> simp_all <;> exact Nat.mod_lt _ hmax

theorem drawFrame_cursor_witness :
    (drawFrame 2 0
        { waitFencesResult := VkResult.eSuccess,
          resetFencesResult := VkResult.eSuccess,
          acquireResult := VkResult.eSuccess,
          submitResult := VkResult.eSuccess,
          presentResult := VkResult.eSuccess }).currentFrame = (0 + 1) % 2 :=
  (drawFrame_cursor 2 0
      { waitFencesResult := VkResult.eSuccess,
        resetFencesResult := VkResult.eSuccess,
        acquireResult := VkResult.eSuccess,
        submitResult := VkResult.eSuccess,
        presentResult := VkResult.eSuccess }
      (by decide) (by decide)).1 (by decide)

/-- Claim C9: the constructor of the Engine in src/src/vkmol/src/Engine.cpp
stores exactly the caller-supplied extension lists in the
InstanceExtensions and DeviceExtensions members; the statically declared
RequiredDeviceExtensions (the swapchain extension) end up appended only to
the shadowing constructor parameters, so when the caller did not pass the
swapchain extension it is absent from the stored member list while present
in the discarded local. -/
theorem engineConstruct_members (instExts devExts movedInst movedDev :
      List String)
    (h : "VK_KHR_swapchain" ∉ devExts) :
    (engineConstruct instExts devExts movedInst movedDev).1.InstanceExtensions
        = instExts ∧
    (engineConstruct instExts devExts movedInst movedDev).1.DeviceExtensions
        = devExts ∧
    "VK_KHR_swapchain" ∉
      (engineConstruct instExts devExts movedInst movedDev).1.DeviceExtensions ∧
    "VK_KHR_swapchain" ∈
      (engineConstruct instExts devExts movedInst movedDev).2.2 := by
  refine ⟨rfl, rfl, h, ?_⟩
  simp [engineConstruct, RequiredDeviceExtensions]

theorem engineConstruct_members_witness :
    (engineConstruct ["VK_EXT_debug_report"] ["VK_KHR_maintenance1"] []
        []).1.DeviceExtensions = ["VK_KHR_maintenance1"] :=
  (engineConstruct_members ["VK_EXT_debug_report"] ["VK_KHR_maintenance1"]
      [] [] (by decide)).2.1

theorem replicate_get? {α : Type} (a : α) :
    ∀ n i, i < n → (List.replicate n a).get? i = some a
  | 0, _, h => absurd h (Nat.not_lt_zero _)
  | _ + 1, 0, _ => rfl
  | n + 1, i + 1, h => replicate_get? a n i (Nat.lt_of_succ_lt_succ h)

/-- Claim C10: Engine::createSyncObjects creates each of the
MaxFramesInFlight in-flight fences in the signaled state, so for every
slot the first fence wait performed by Engine::drawFrame on that slot
returns eSuccess without any prior queue submission having signaled the
fence. -/
theorem createSyncObjects_first_wait (maxFrames i : Nat) (h : i < maxFrames) :
    (createSyncObjectsFences maxFrames).get? i = some { signaled := true } ∧
    ((createSyncObjectsFences maxFrames).get? i).map firstFenceWait =
      some (some VkResult.eSuccess) := by
  have hg : (createSyncObjectsFences maxFrames).get? i =
      some { signaled := true } := by
    unfold createSyncObjectsFences
    exact replicate_get? ({ signaled := true } : FenceState) maxFrames i h
  exact ⟨hg, by rw [hg]; rfl⟩

theorem createSyncObjects_first_wait_witness :
    (createSyncObjectsFences 2).get? 0 = some { signaled := true } :=
  (createSyncObjects_first_wait 2 0 (by decide)).1

end VkMOL
